import Mathlib

/-!
Verification development for the go-database-mcp repository.

Go strings are modelled as lists of characters (faithful for the ASCII
texts the validators handle); Go errors are modelled as their message
text, so a fallible Go function returning error becomes a Lean function
returning an Option or Except value carrying the message characters.
Every definition below is a direct translation of the corresponding Go
function, named after it.
-/

namespace DBMCP

/-- Str abbreviates the model of a Go string: its list of characters. -/
abbrev Str := List Char

/-- Character class of unicode.IsSpace restricted to ASCII, as used by
strings.TrimSpace in the Go source. -/
def goTrimSpaceChar (c : Char) : Bool :=
  c = ' ' || c = '\t' || c = '\n' || c = Char.ofNat 11 || c = Char.ofNat 12 || c = '\r'

/-- Character class of the regexp escape for whitespace in Go (RE2): tab,
newline, form feed, carriage return and space. -/
def goRegexSpace (c : Char) : Bool :=
  c = '\t' || c = '\n' || c = Char.ofNat 12 || c = '\r' || c = ' '

/-- Model of strings.TrimSpace. -/
def trimSpace (s : Str) : Str :=
  ((s.dropWhile goTrimSpaceChar).reverse.dropWhile goTrimSpaceChar).reverse

/-- Model of strings.ToUpper (ASCII). -/
def toUpperStr (s : Str) : Str := s.map Char.toUpper

/-- Model of strings.ToLower (ASCII). -/
def toLowerStr (s : Str) : Str := s.map Char.toLower

/-- Model of strings.Contains: pat occurs as a contiguous substring of s. -/
def containsSub (pat : Str) : Str → Bool
  | [] => pat.isEmpty
  | c :: rest => pat.isPrefixOf (c :: rest) || containsSub pat rest

/-- Fueled scanner behind countOcc; the fuel bounds the number of scan
steps so the recursion is structural. -/
def countOccAux (pat : Str) : Nat → Str → Nat
  | 0, _ => 0
  | _ + 1, [] => 0
  | fuel + 1, c :: rest =>
    if pat.isPrefixOf (c :: rest) then
      1 + countOccAux pat fuel ((c :: rest).drop pat.length)
    else
      countOccAux pat fuel rest

/-- Model of strings.Count for a non-empty pattern: the number of
non-overlapping occurrences of pat in s, scanning left to right. -/
def countOcc (pat : Str) (s : Str) : Nat := countOccAux pat s.length s

/-- Fueled scanner behind replaceAll. -/
def replaceAllAux (pat rep : Str) : Nat → Str → Str
  | 0, s => s
  | _ + 1, [] => []
  | fuel + 1, c :: rest =>
    if pat.isPrefixOf (c :: rest) then
      rep ++ replaceAllAux pat rep fuel ((c :: rest).drop pat.length)
    else
      c :: replaceAllAux pat rep fuel rest

/-- Model of strings.ReplaceAll for a non-empty pattern: every
non-overlapping occurrence of pat in s, found left to right, is replaced
by rep. The Go call sites below only pass non-empty patterns. -/
def replaceAll (s pat rep : Str) : Str := replaceAllAux pat rep s.length s

/-- Character class of the first character of the identifier shape used by
the access-check regular expressions: an ASCII letter or underscore. -/
def isIdentStart (c : Char) : Bool :=
  ('a' ≤ c && c ≤ 'z') || ('A' ≤ c && c ≤ 'Z') || c = '_'

/-- Character class of the later characters of that identifier shape. -/
def isIdentChar (c : Char) : Bool :=
  isIdentStart c || ('0' ≤ c && c ≤ '9')

/-- Word characters of the RE2 word-boundary assertion. -/
def isWordChar (c : Char) : Bool := isIdentChar c

/-- Reads a maximal identifier from the front of the input; returns the
identifier and the remaining characters. -/
def takeIdent : Str → Option (Str × Str)
  | [] => none
  | c :: rest =>
    if isIdentStart c then
      some (c :: rest.takeWhile isIdentChar, rest.dropWhile isIdentChar)
    else
      none

/-! Configuration model, from internal/config/config.go. The Go field
Type is rendered typ because Type is reserved in Lean. -/

/-- Model of config.DatabaseConfig. -/
structure DatabaseConfig where
  connectionString : Str := []
  typ : Str := []
  host : Str := []
  port : Int := 0
  database : Str := []
  username : Str := []
  password : Str := []
  sslMode : Str := []
  allowedDatabases : List Str := []
  maxConns : Int := 0
  maxIdleConns : Int := 0

/-- Model of DatabaseConfig.IsDatabaseAllowed (config.go): the primary
database is always allowed; with an empty additional list nothing else
is; otherwise membership in the additional list decides. -/
def IsDatabaseAllowed (cfg : DatabaseConfig) (databaseName : Str) : Bool :=
  if databaseName = cfg.database then
    true
  else if cfg.allowedDatabases.length = 0 then
    false
  else
    cfg.allowedDatabases.contains databaseName

/-! Security validator, from internal/security (the query validator file).
The two regular expressions of validateDatabaseAccess are compiled by hand
into scanners with the same matching behaviour. -/

/-- Model of QueryValidator.isSystemKeyword. -/
def isSystemKeyword (word : Str) : Bool :=
  let w := toUpperStr word
  w = "INFORMATION_SCHEMA".data || w = "PERFORMANCE_SCHEMA".data ||
  w = "SYS".data || w = "MYSQL".data || w = "PG_CATALOG".data || w = "PUBLIC".data

/-- Model of QueryValidator.isCommonAlias. -/
def isCommonAlias (word : Str) : Bool :=
  let w := toLowerStr word
  w = "u".data || w = "o".data || w = "p".data || w = "t".data ||
  w = "t1".data || w = "t2".data || w = "t3".data ||
  w = "a".data || w = "b".data || w = "c".data

/-- Drops a maximal run of regexp whitespace. -/
def dropMaxWs (s : Str) : Str := s.dropWhile goRegexSpace

/-- Attempts the tail of the USE regular expression at the given position:
the literal USE, at least one whitespace, an identifier (the capture), and
then end of input, a semicolon or a whitespace character. Returns the
captured identifier. -/
def parseUseAt : Str → Option Str
  | 'U' :: 'S' :: 'E' :: c :: rest =>
    if goRegexSpace c then
      match takeIdent (dropMaxWs rest) with
      | some (ident, after) =>
        match after with
        | [] => some ident
        | c2 :: _ => if c2 = ';' || goRegexSpace c2 then some ident else none
      | none => none
    else
      none
  | _ => none

/-- Scans for the alternative of the USE pattern that starts at a
semicolon: a semicolon, optional whitespace, then the USE tail. Returns
the capture of the leftmost such match. -/
def scanUse : Str → Option Str
  | [] => none
  | c :: rest =>
    if c = ';' then
      match parseUseAt (dropMaxWs rest) with
      | some ident => some ident
      | none => scanUse rest
    else
      scanUse rest

/-- Model of usePattern.FindStringSubmatch on the normalized query: the
capture of the leftmost match of the USE directive pattern, which is
anchored at the start of the text or after a semicolon. -/
def findUseDatabase (normalized : Str) : Option Str :=
  match parseUseAt normalized with
  | some ident => some ident
  | none => scanUse normalized

/-- Attempts the qualified-name pattern at the given position: an
identifier (the capture), optional whitespace, a dot, optional
whitespace, a second identifier, then end of input or one of whitespace,
comma, closing parenthesis or semicolon (consumed). Returns the capture
and the rest of the input after the match. -/
def parseQualifiedAt (s : Str) : Option (Str × Str) :=
  match takeIdent s with
  | some (ident1, r1) =>
    match dropMaxWs r1 with
    | '.' :: r3 =>
      match takeIdent (dropMaxWs r3) with
      | some (_, r5) =>
        match r5 with
        | [] => some (ident1, [])
        | c :: r6 =>
          if goRegexSpace c || c = ',' || c = ')' || c = ';' then
            some (ident1, r6)
          else
            none
      | none => none
    | _ => none
  | none => none

/-- Fueled scanner behind scanQualified: tries the qualified-name pattern
at each position whose preceding character is not a word character (the
word boundary), collecting the captures of the non-overlapping matches
left to right. -/
def scanQualifiedAux : Nat → Bool → Str → List Str
  | 0, _, _ => []
  | _ + 1, _, [] => []
  | fuel + 1, prevIsWord, c :: rest =>
    if !prevIsWord && isIdentStart c then
      match parseQualifiedAt (c :: rest) with
      | some (ident1, after) => ident1 :: scanQualifiedAux fuel false after
      | none => scanQualifiedAux fuel (isWordChar c) rest
    else
      scanQualifiedAux fuel (isWordChar c) rest

/-- Model of qualifiedTablePattern.FindAllStringSubmatch on the raw query:
the first captures of all non-overlapping matches of the
identifier-dot-identifier pattern. -/
def scanQualified (s : Str) : List Str := scanQualifiedAux s.length false s

/-- The access-denied message of validateDatabaseAccess, built at both of
its error sites with the offending database name. -/
def accessDeniedMsg (name : Str) : Str :=
  "access denied: database '".data ++ name ++ "' is not in allowed databases list".data

/-- The loop body of validateDatabaseAccess over the qualified-name
captures: lowercases each candidate, skips system keywords and common
aliases, and returns the first name that is not allowed. -/
def firstDisallowedQualified (cfg : DatabaseConfig) : List Str → Option Str
  | [] => none
  | m :: rest =>
    let databaseName := toLowerStr m
    if isSystemKeyword databaseName || isCommonAlias databaseName then
      firstDisallowedQualified cfg rest
    else if !IsDatabaseAllowed cfg databaseName then
      some databaseName
    else
      firstDisallowedQualified cfg rest

/-- Model of QueryValidator.validateInformationSchemaQuery, which allows
every INFORMATION_SCHEMA query. -/
def validateInformationSchemaQuery (_query : Str) : Option Str := none

/-- Model of QueryValidator.validateDatabaseAccess: the USE-directive
check, then the qualified-name loop, then the INFORMATION_SCHEMA branch
(which always passes). Returns the error message of the first violation. -/
def validateDatabaseAccess (cfg : DatabaseConfig) (query : Str) : Option Str :=
  let normalized := toUpperStr (trimSpace query)
  match findUseDatabase normalized with
  | some m =>
    let databaseName := toLowerStr m
    if !IsDatabaseAllowed cfg databaseName then
      some (accessDeniedMsg databaseName)
    else
      match firstDisallowedQualified cfg (scanQualified query) with
      | some name => some (accessDeniedMsg name)
      | none =>
        if containsSub "INFORMATION_SCHEMA".data normalized then
          validateInformationSchemaQuery query
        else
          none
  | none =>
    match firstDisallowedQualified cfg (scanQualified query) with
    | some name => some (accessDeniedMsg name)
    | none =>
      if containsSub "INFORMATION_SCHEMA".data normalized then
        validateInformationSchemaQuery query
      else
        none

/-- Decimal rendering of an integer, as fmt renders the counts in the
complexity error messages. -/
def intToStr (i : Int) : Str := (Int.repr i).data

/-- The denylist of validateBasicSafety: each dangerous substring paired
with its description. -/
def dangerousPatterns : List (Str × Str) :=
  [ ("--".data, "SQL comments".data),
    (";--".data, "SQL injection attempts".data),
    ("/*".data, "SQL block comments".data),
    ("*/".data, "SQL block comments".data),
    ("EXEC(".data, "dynamic SQL execution".data),
    ("EXECUTE(".data, "dynamic SQL execution".data),
    ("SP_".data, "system stored procedures".data),
    ("XP_".data, "extended stored procedures".data),
    ("LOAD_FILE".data, "file system access".data),
    ("INTO OUTFILE".data, "file system access".data),
    ("INTO DUMPFILE".data, "file system access".data) ]

/-- The dangerous-pattern message of validateBasicSafety. -/
def dangerousPatternMsg (description pattern : Str) : Str :=
  "potentially dangerous pattern detected (".data ++ description ++ "): ".data ++ pattern

/-- Model of QueryValidator.validateBasicSafety: rejects the empty (after
trimming) statement, then the first denylisted substring found in the
uppercased statement. -/
def validateBasicSafety (query : Str) : Option Str :=
  let normalized := toUpperStr (trimSpace query)
  if normalized = [] then
    some "query cannot be empty".data
  else
    match dangerousPatterns.find? (fun d => containsSub d.1 normalized) with
    | some d => some (dangerousPatternMsg d.2 d.1)
    | none => none

/-- The too-many-subqueries message of validateQueryComplexity. -/
def subqueriesMsg (n : Int) : Str :=
  "query complexity limit exceeded: too many subqueries (".data ++ intToStr n ++ " > 5)".data

/-- The too-many-joins message of validateQueryComplexity. -/
def joinsMsg (n : Int) : Str :=
  "query complexity limit exceeded: too many JOINs (".data ++ intToStr n ++ " > 10)".data

/-- The query-too-long message of validateQueryComplexity. -/
def tooLongMsg (n : Int) : Str :=
  "query complexity limit exceeded: query too long (".data ++ intToStr n ++
    " characters > 50000)".data

/-- Model of QueryValidator.validateQueryComplexity: counts SELECT
occurrences (minus one for the main query), JOIN occurrences, and the raw
statement length, each against its fixed limit. -/
def validateQueryComplexity (query : Str) : Option Str :=
  let normalized := toUpperStr (trimSpace query)
  let selectCount : Int := countOcc "SELECT".data normalized
  let subqueryCount : Int := selectCount - 1
  if subqueryCount > 5 then
    some (subqueriesMsg subqueryCount)
  else
    let joinCount : Int := countOcc "JOIN".data normalized
    if joinCount > 10 then
      some (joinsMsg joinCount)
    else if (query.length : Int) > 50000 then
      some (tooLongMsg query.length)
    else
      none

/-- Model of QueryValidator.ValidateQuery: database access, then basic
safety, then complexity, stopping at the first error. -/
def ValidateQuery (cfg : DatabaseConfig) (query : Str) : Option Str :=
  match validateDatabaseAccess cfg query with
  | some e => some e
  | none =>
    match validateBasicSafety query with
    | some e => some e
    | none => validateQueryComplexity query

/-- Model of QueryValidator.SanitizeErrorMessage: a nil error stays nil;
otherwise each non-empty one of password, username and host, in that
order, has all its occurrences in the message replaced by the redaction
marker. -/
def SanitizeErrorMessage (cfg : DatabaseConfig) (err : Option Str) : Option Str :=
  match err with
  | none => none
  | some message =>
    let sensitivePatterns := [cfg.password, cfg.username, cfg.host]
    some (sensitivePatterns.foldl
      (fun m pattern => if pattern ≠ [] then replaceAll m pattern "[REDACTED]".data else m)
      message)

/-! Query handler, from internal/handlers (query handler file). The two
anchored ReplaceAllString calls of determineQueryType are compiled by
hand: each removes the matched leading-comment prefix, which the regexp
can only find at the start of the text. -/

/-- Drops the non-newline characters before the next newline and the
newline itself; none when no newline follows (in which case the
line-comment group of the regular expression fails to match). -/
def dropThroughNewline : Str → Option Str
  | [] => none
  | '\n' :: rest => some rest
  | _ :: rest => dropThroughNewline rest

/-- Fueled removal of the repeated line-comment groups: each group is two
hyphens, the rest of the line, its newline, and trailing whitespace. -/
def stripLineGroupsAux : Nat → Str → Str
  | 0, s => s
  | fuel + 1, s =>
    match s with
    | '-' :: '-' :: rest =>
      match dropThroughNewline rest with
      | some rest2 => stripLineGroupsAux fuel (rest2.dropWhile goRegexSpace)
      | none => s
    | _ => s

/-- Model of the first ReplaceAllString of determineQueryType: removes
leading whitespace and complete line comments. -/
def stripLeadingLineComments (s : Str) : Str :=
  stripLineGroupsAux s.length (s.dropWhile goRegexSpace)

/-- Drops the characters of a block comment body up to and past the
closing star-slash; none when a newline intervenes (the regexp dot does
not match newlines) or the comment never closes. -/
def dropToBlockClose : Str → Option Str
  | [] => none
  | '*' :: '/' :: rest => some rest
  | '\n' :: _ => none
  | _ :: rest => dropToBlockClose rest

/-- Fueled removal of the repeated block-comment groups: each group is a
slash-star opener, a newline-free body, the closer, and trailing
whitespace. -/
def stripBlockGroupsAux : Nat → Str → Str
  | 0, s => s
  | fuel + 1, s =>
    match s with
    | '/' :: '*' :: rest =>
      match dropToBlockClose rest with
      | some rest2 => stripBlockGroupsAux fuel (rest2.dropWhile goRegexSpace)
      | none => s
    | _ => s

/-- Model of the second ReplaceAllString of determineQueryType: removes
leading whitespace and complete single-line block comments. -/
def stripLeadingBlockComments (s : Str) : Str :=
  stripBlockGroupsAux s.length (s.dropWhile goRegexSpace)

/-- Model of QueryHandler.determineQueryType: uppercases and trims the
query, strips leading line and block comments, and dispatches on the
remaining prefix; everything unmatched is ddl. -/
def determineQueryType (query : Str) : Str :=
  let normalized := toUpperStr (trimSpace query)
  let normalized := stripLeadingLineComments normalized
  let normalized := stripLeadingBlockComments normalized
  if "SELECT".data.isPrefixOf normalized || "WITH".data.isPrefixOf normalized then
    "select".data
  else if "INSERT".data.isPrefixOf normalized then
    "insert".data
  else if "UPDATE".data.isPrefixOf normalized then
    "update".data
  else if "DELETE".data.isPrefixOf normalized then
    "delete".data
  else if ["CREATE".data, "ALTER".data, "DROP".data, "TRUNCATE".data,
      "RENAME".data].any (fun k => k.isPrefixOf normalized) then
    "ddl".data
  else
    "ddl".data

/-! Connection manager, from internal/database/connection.go. -/

/-- Model of validateConfig (connection.go): type tag present and
supported, host, a non-zero port, database and username present; the
first failing field decides the error. -/
def validateConfig (cfg : DatabaseConfig) : Option Str :=
  if cfg.typ = [] then
    some "database type is required".data
  else if cfg.typ ≠ "mysql".data ∧ cfg.typ ≠ "postgres".data then
    some ("unsupported database type: ".data ++ cfg.typ)
  else if cfg.host = [] then
    some "database host is required".data
  else if cfg.port = 0 then
    some "database port is required".data
  else if cfg.database = [] then
    some "database name is required".data
  else if cfg.username = [] then
    some "database username is required".data
  else
    none

/-- Model of database.Manager: the validated configuration held by the
connection manager before any connection is made. -/
structure Manager where
  config : DatabaseConfig

/-- Model of NewManager (connection.go): wraps the validateConfig error,
otherwise returns the manager holding the configuration. -/
def NewManager (cfg : DatabaseConfig) : Except Str Manager :=
  match validateConfig cfg with
  | some e => .error ("invalid database configuration: ".data ++ e)
  | none => .ok { config := cfg }

/-- The SSL modes the loader accepts for postgres (loader.go). -/
def validPostgresSSLModes : List Str :=
  ["disable".data, "require".data, "verify-ca".data, "verify-full".data, "prefer".data]

/-- Model of config.Validate (loader.go), the loader-side validation: the
connection-string-or-fields presence checks, the type tag, host, the
port range, database, username, the pool bounds, and the postgres SSL
mode table. Sequential early returns become a chain of conditionals. -/
def ConfigValidate (cfg : DatabaseConfig) : Option Str :=
  if cfg.connectionString = [] ∧ cfg.typ = [] then
    some "database type is required (either via connection string or DB_TYPE)".data
  else if cfg.connectionString = [] ∧ cfg.host = [] then
    some "database host is required (either via connection string or DB_HOST)".data
  else if cfg.connectionString = [] ∧ cfg.database = [] then
    some "database name is required (either via connection string or DB_NAME)".data
  else if cfg.connectionString = [] ∧ cfg.username = [] then
    some "database username is required (either via connection string or DB_USER)".data
  else if cfg.typ ≠ "mysql".data ∧ cfg.typ ≠ "postgres".data then
    some ("database type must be 'mysql' or 'postgres', got '".data ++ cfg.typ ++ "'".data)
  else if cfg.host = [] then
    some "database host is required".data
  else if cfg.port ≤ 0 ∨ cfg.port > 65535 then
    some ("database port must be between 1 and 65535, got ".data ++ intToStr cfg.port)
  else if cfg.database = [] then
    some "database name is required".data
  else if cfg.username = [] then
    some "database username is required".data
  else if cfg.maxConns < 1 then
    some ("max connections must be at least 1, got ".data ++ intToStr cfg.maxConns)
  else if cfg.maxIdleConns < 0 then
    some ("max idle connections cannot be negative, got ".data ++ intToStr cfg.maxIdleConns)
  else if cfg.maxIdleConns > cfg.maxConns then
    some ("max idle connections (".data ++ intToStr cfg.maxIdleConns ++
      ") cannot exceed max connections (".data ++ intToStr cfg.maxConns ++ ")".data)
  else if cfg.typ = "postgres".data ∧ validPostgresSSLModes.contains cfg.sslMode = false then
    some ("invalid SSL mode for postgres: ".data ++ cfg.sslMode)
  else
    none

/-! Engine data path, from the GetTableData methods of
internal/database/postgres.go and internal/database/mysql.go. The backing
table is modelled as the list of its rows (an abstract row type), so the
COUNT query yields the list length and the paginated SELECT yields a
drop-then-take slice; both engines share that backend semantics and
differ only in SQL text. Offsets are modelled for the non-negative values
on which the SQL succeeds. -/

/-- Model of database.TableData (interface.go), over an abstract row
type. -/
structure TableData (ρ : Type) where
  tableName : Str
  columns : List Str
  rows : List ρ
  total : Int
  limit : Int
  offset : Int

/-- Model of PostgreSQL.GetTableData on a connected engine whose table
holds the given rows: a non-positive limit becomes 100, the COUNT query
returns the full row count, and the LIMIT-OFFSET query returns the page. -/
def postgresGetTableData {ρ : Type} (table : List ρ) (columns : List Str)
    (tableName : Str) (limit offset : Int) : TableData ρ :=
  let limit := if limit ≤ 0 then 100 else limit
  let total : Int := table.length
  let page := (table.drop offset.toNat).take limit.toNat
  { tableName := tableName, columns := columns, rows := page,
    total := total, limit := limit, offset := offset }

/-- Model of MySQL.GetTableData on a connected engine, identical to the
postgres data path up to SQL dialect. -/
def mysqlGetTableData {ρ : Type} (table : List ρ) (columns : List Str)
    (tableName : Str) (limit offset : Int) : TableData ρ :=
  let limit := if limit ≤ 0 then 100 else limit
  let total : Int := table.length
  let page := (table.drop offset.toNat).take limit.toNat
  { tableName := tableName, columns := columns, rows := page,
    total := total, limit := limit, offset := offset }

/-! Pre-connection behaviour of the engine operations, from the method
bodies at the top of postgres.go and mysql.go. An engine value holds an
optional connection (the db pointer, nil before Connect succeeds); the
behaviour of the live connection is an abstract function. A Go method
that dereferences a nil pointer does not return: that outcome is the
crashed constructor, distinct from every returned error. -/

/-- Outcome of one engine operation: a value, a returned error message,
or a crash (nil-pointer dereference). -/
inductive OpResult (α : Type) where
  | ok : α → OpResult α
  | err : Str → OpResult α
  | crashed : OpResult α
deriving DecidableEq

/-- Model of a Go method call through a possibly nil pointer: on nil the
program crashes instead of returning. -/
def derefCall {δ α : Type} (db : Option δ) (f : δ → OpResult α) : OpResult α :=
  match db with
  | none => .crashed
  | some d => f d

/-- Model of the engine structs PostgreSQL and MySQL as far as the
connection state is concerned: the optional live connection. -/
structure EngineState (δ : Type) where
  db : Option δ

/-- Model of PostgreSQL.Ping and MySQL.Ping: an explicit nil check
returning the not-connected error, then the underlying ping. -/
def enginePing {δ : Type} (pingDB : δ → OpResult Unit) (e : EngineState δ) : OpResult Unit :=
  match e.db with
  | none => .err "no database connection".data
  | some d => pingDB d

/-- Model of PostgreSQL.Query and MySQL.Query: an explicit nil check
returning the not-connected error, then the underlying query. -/
def engineQuery {δ ρ : Type} (queryDB : δ → OpResult ρ) (e : EngineState δ) : OpResult ρ :=
  match e.db with
  | none => .err "no database connection".data
  | some d => queryDB d

/-- Model of PostgreSQL.Exec and MySQL.Exec: an explicit nil check
returning the not-connected error, then the underlying statement. -/
def engineExec {δ ρ : Type} (execDB : δ → OpResult ρ) (e : EngineState δ) : OpResult ρ :=
  match e.db with
  | none => .err "no database connection".data
  | some d => execDB d

/-- Model of PostgreSQL.QueryRow and MySQL.QueryRow: no nil check, the
method is called directly on the stored pointer. -/
def engineQueryRow {δ ρ : Type} (queryRowDB : δ → OpResult ρ) (e : EngineState δ) : OpResult ρ :=
  derefCall e.db queryRowDB

/-! The introspection operations of both engines, as far as the
connection state is concerned. Each is built on Query or QueryRow as in
the source; the behaviour on a live connection (row scanning included)
is the abstract function, and an error from the first engine call is
wrapped with the operation context exactly as the source does. A crash
in a callee never returns, so it propagates. -/

/-- Model of PostgreSQL.ListTables and MySQL.ListTables: the table query
goes through Query, and its error is wrapped. -/
def engineListTablesOp {δ : Type} (queryDB : δ → OpResult (List Str))
    (e : EngineState δ) : OpResult (List Str) :=
  match engineQuery queryDB e with
  | .crashed => .crashed
  | .err msg => .err ("failed to list tables: ".data ++ msg)
  | .ok tables => .ok tables

/-- Model of PostgreSQL.ListDatabases and MySQL.ListDatabases: the
database query goes through Query, and its error is wrapped. -/
def engineListDatabasesOp {δ : Type} (queryDB : δ → OpResult (List Str))
    (e : EngineState δ) : OpResult (List Str) :=
  match engineQuery queryDB e with
  | .crashed => .crashed
  | .err msg => .err ("failed to list databases: ".data ++ msg)
  | .ok databases => .ok databases

/-- Model of PostgreSQL.DescribeTable and MySQL.DescribeTable: the column
query goes through Query first, and its error is wrapped; the remaining
schema assembly happens on the live connection only. -/
def engineDescribeTableOp {δ σ : Type} (describeDB : δ → OpResult σ)
    (e : EngineState δ) : OpResult σ :=
  match engineQuery describeDB e with
  | .crashed => .crashed
  | .err msg => .err ("failed to describe table: ".data ++ msg)
  | .ok schema => .ok schema

/-- Model of the connection-state structure of PostgreSQL.GetTableData
and MySQL.GetTableData: after the limit defaulting, the first engine
interaction is the count query through QueryRow (whose scan error is
wrapped), then the page query through Query (whose error is wrapped);
the row scanning on a live connection is the abstract function. -/
def engineGetTableDataOp {δ ρ : Type} (countScan : δ → OpResult Unit)
    (dataQuery : δ → OpResult ρ) (e : EngineState δ) (limit : Int) : OpResult ρ :=
  let _limit := if limit ≤ 0 then 100 else limit
  match engineQueryRow countScan e with
  | .crashed => .crashed
  | .err msg => .err ("failed to count rows: ".data ++ msg)
  | .ok _ =>
    match engineQuery dataQuery e with
    | .crashed => .crashed
    | .err msg => .err ("failed to query table data: ".data ++ msg)
    | .ok rows => .ok rows

/-- Model of PostgreSQL.ExplainQuery and MySQL.ExplainQuery: the plan
query goes through QueryRow, and its scan error is wrapped. -/
def engineExplainQueryOp {δ : Type} (explainScan : δ → OpResult Str)
    (e : EngineState δ) : OpResult Str :=
  match engineQueryRow explainScan e with
  | .crashed => .crashed
  | .err msg => .err ("failed to explain query: ".data ++ msg)
  | .ok plan => .ok plan

/-! MySQL connection string, from MySQL.buildDSN (mysql.go). -/

/-- The TLS parameter of MySQL.buildDSN, switched on the raw configured
SSL-mode string: the cases are none, required and preferred, and every
other value falls to the default tls=true. -/
def mysqlSSLParam (sslMode : Str) : Str :=
  if sslMode = "none".data then "tls=false".data
  else if sslMode = "required".data then "tls=true".data
  else if sslMode = "preferred".data then "tls=preferred".data
  else "tls=true".data

/-- Model of MySQL.buildDSN: the optional TLS parameter, the fixed
parseTime and timeout parameters, and the user-password-host-port-database
prefix, joined with an ampersand-separated query string. -/
def mysqlBuildDSN (cfg : DatabaseConfig) : Str :=
  let params : List Str :=
    (if cfg.sslMode ≠ [] then [mysqlSSLParam cfg.sslMode] else []) ++
    ["parseTime=true".data, "timeout=30s".data, "readTimeout=30s".data,
     "writeTimeout=30s".data]
  let dsn := cfg.username ++ ":".data ++ cfg.password ++ "@tcp(".data ++ cfg.host ++
    ":".data ++ intToStr cfg.port ++ ")/".data ++ cfg.database
  dsn ++ "?".data ++ List.intercalate "&".data params

/-! Schema handler, from the SchemaHandler methods of
internal/handlers. The engine behind the handler is an abstract function
from table name, limit and offset to an engine result, so rejection
before any engine call is expressed as independence from that function. -/

/-- Model of SchemaHandler.GetTableData: rejects a blank table name and
negative limit or offset, replaces a zero limit with the default 100,
clamps limits above 1000 to 1000, and passes the effective limit and the
offset to the engine, wrapping an engine error with context. -/
def schemaGetTableData {α : Type} (db : Str → Int → Int → Except Str α)
    (tableName : Str) (limit offset : Int) : Except Str α :=
  if trimSpace tableName = [] then
    .error "table name cannot be empty".data
  else if limit < 0 then
    .error "limit cannot be negative".data
  else if offset < 0 then
    .error "offset cannot be negative".data
  else
    let limit := if limit = 0 then 100 else limit
    let limit := if limit > 1000 then 1000 else limit
    match db tableName limit offset with
    | .error e => .error ("failed to get table data for ".data ++ tableName ++ ": ".data ++ e)
    | .ok d => .ok d

/-- The effective limit applied by SchemaHandler.GetTableData to an
accepted request: zero becomes the default 100, values above 1000 are
clamped to 1000. -/
def effectiveLimit (limit : Int) : Int :=
  let limit := if limit = 0 then 100 else limit
  if limit > 1000 then 1000 else limit

/-! Spec-side classifier and concrete inputs used by the theorems. -/

/-- Modelled from the spec wording of the classifier (section 4.4), for
comparison with determineQueryType: on the comment-stripped uppercased
text, a SELECT or WITH prefix is select, INSERT is insert, UPDATE is
update, DELETE is delete, and everything else (the DDL keywords and all
unmatched statements alike) is ddl. -/
def specQueryType (n : Str) : Str :=
  if "SELECT".data.isPrefixOf n || "WITH".data.isPrefixOf n then "select".data
  else if "INSERT".data.isPrefixOf n then "insert".data
  else if "UPDATE".data.isPrefixOf n then "update".data
  else if "DELETE".data.isPrefixOf n then "delete".data
  else "ddl".data

/-- The security test fixture: primary database testdb, additional
allow-list holding only testdb. -/
def cfgTestAllowed : DatabaseConfig :=
  { typ := "postgres".data, host := "localhost".data, port := 5432,
    database := "testdb".data, allowedDatabases := ["testdb".data],
    username := "testuser".data, password := "testpass".data,
    sslMode := "disable".data }

/-- The sanitizer test fixture with its three sensitive values. -/
def cfgSecrets : DatabaseConfig :=
  { host := "secret-host.com".data, username := "secret-user".data,
    password := "secret-password".data }

/-- A configuration whose host occurs inside the redaction marker. -/
def cfgRed : DatabaseConfig :=
  { host := "RED".data, username := "secret-user".data,
    password := "secret-password".data }

/-- A configuration violating the port range and both pool bounds of the
spec while satisfying every check of validateConfig. -/
def cfgBadPort : DatabaseConfig :=
  { typ := "postgres".data, host := "h".data, port := 70000,
    database := "d".data, username := "u".data,
    maxConns := 0, maxIdleConns := 5 }

/-- A MySQL configuration using the SSL enumeration value prefer. -/
def cfgPrefer : DatabaseConfig :=
  { typ := "mysql".data, host := "localhost".data, port := 3306,
    database := "testdb".data, username := "user".data,
    password := "pass".data, sslMode := "prefer".data }

/-! Helper lemmas about the string model. -/

/-- An occurrence in the right part of an append is an occurrence in the
whole. -/
theorem containsSub_append_right (p a b : Str) (h : containsSub p b = true) :
    containsSub p (a ++ b) = true := by
  induction a with
  | nil => simpa using h
  | cons c t ih => simp [containsSub, ih]

/-- A prefix of the left part of an append is a prefix of the whole. -/
theorem isPrefixOf_append_left (p a b : Str) (h : p.isPrefixOf a = true) :
    p.isPrefixOf (a ++ b) = true := by
  rw [List.isPrefixOf_iff_prefix] at h ⊢
  exact h.trans (List.prefix_append a b)

/-- Claim C2: for every configuration, IsDatabaseAllowed accepts the
primary database name whatever the additional allow-list contains, and
with an empty additional allow-list it accepts only the primary database
name. -/
theorem isDatabaseAllowed_primary_and_empty_list (cfg : DatabaseConfig) :
    IsDatabaseAllowed cfg cfg.database = true ∧
    (cfg.allowedDatabases = [] →
      ∀ x : Str, IsDatabaseAllowed cfg x = true → x = cfg.database) := by
  constructor
  · simp [IsDatabaseAllowed]
  · intro hempty x hx
    by_contra hne
    simp [IsDatabaseAllowed, hne, hempty] at hx

/-- Witness for claim C2 at a concrete configuration with primary
database d and an empty allow-list: the primary database is allowed, and
a name the predicate accepts equals the primary name. -/
theorem isDatabaseAllowed_primary_and_empty_list_witness :
    IsDatabaseAllowed cfgBadPort cfgBadPort.database = true ∧
    "d".data = cfgBadPort.database :=
  ⟨(isDatabaseAllowed_primary_and_empty_list cfgBadPort).1,
   (isDatabaseAllowed_primary_and_empty_list cfgBadPort).2 rfl "d".data (by decide)⟩

/-- Claim C10: calling an engine GetTableData directly with any
non-positive limit (including negative limits) substitutes the effective
limit 100, and the returned TableData echoes that effective limit and
the given offset while its total field is the full row count of the
table, independent of the requested page; this holds for both engines.
Offsets are taken non-negative, the domain on which the paginated SQL
query succeeds. -/
theorem engineGetTableData_limit_default {ρ : Type} (table : List ρ)
    (columns : List Str) (name : Str) (limit offset : Int)
    (hl : limit ≤ 0) (_ho : 0 ≤ offset) :
    (postgresGetTableData table columns name limit offset).limit = 100 ∧
    (postgresGetTableData table columns name limit offset).offset = offset ∧
    (postgresGetTableData table columns name limit offset).total = table.length ∧
    (postgresGetTableData table columns name limit offset).rows =
      (table.drop offset.toNat).take 100 ∧
    mysqlGetTableData table columns name limit offset =
      postgresGetTableData table columns name limit offset := by
  refine ⟨?_, rfl, rfl, ?_, rfl⟩
  · simp [postgresGetTableData, hl]
  · simp [postgresGetTableData, hl]

/-- Witness for claim C10 at a three-row table, limit -5 and offset 1. -/
theorem engineGetTableData_limit_default_witness :
    (postgresGetTableData [10, 20, 30] [] "orders".data (-5) 1).limit = 100 ∧
    (postgresGetTableData [10, 20, 30] [] "orders".data (-5) 1).offset = 1 ∧
    (postgresGetTableData [10, 20, 30] [] "orders".data (-5) 1).total = 3 ∧
    (postgresGetTableData [10, 20, 30] [] "orders".data (-5) 1).rows =
      ([10, 20, 30].drop (Int.toNat 1)).take 100 ∧
    mysqlGetTableData [10, 20, 30] [] "orders".data (-5) 1 =
      postgresGetTableData [10, 20, 30] [] "orders".data (-5) 1 :=
  engineGetTableData_limit_default [10, 20, 30] [] "orders".data (-5) 1
    (by decide) (by decide)

/-- Claim C5: the schema handler rejects a blank table name, a negative
limit and a negative offset with fixed errors that do not depend on the
engine, replaces a zero limit by the default 100 and clamps limits above
1000 to 1000, passes exactly the effective limit and the offset to the
engine, and composed with the engine data path the result carries the
full row count independently of the returned page. -/
theorem schemaGetTableData_validation {α : Type}
    (db : Str → Int → Int → Except Str α) (name : Str) (limit offset : Int) :
    (trimSpace name = [] →
      schemaGetTableData db name limit offset =
        .error "table name cannot be empty".data) ∧
    (trimSpace name ≠ [] → limit < 0 →
      schemaGetTableData db name limit offset =
        .error "limit cannot be negative".data) ∧
    (trimSpace name ≠ [] → ¬ limit < 0 → offset < 0 →
      schemaGetTableData db name limit offset =
        .error "offset cannot be negative".data) ∧
    (trimSpace name ≠ [] → ¬ limit < 0 → ¬ offset < 0 →
      schemaGetTableData db name limit offset =
        match db name (effectiveLimit limit) offset with
        | .error e =>
            .error ("failed to get table data for ".data ++ name ++ ": ".data ++ e)
        | .ok d => .ok d) ∧
    effectiveLimit 0 = 100 ∧ effectiveLimit 5000 = 1000 ∧
    (∀ (ρ : Type) (table : List ρ) (columns : List Str),
      trimSpace name ≠ [] → ¬ limit < 0 → ¬ offset < 0 →
      schemaGetTableData
          (fun n l o => .ok (postgresGetTableData table columns n l o))
          name limit offset =
        .ok (postgresGetTableData table columns name (effectiveLimit limit) offset) ∧
      (postgresGetTableData table columns name (effectiveLimit limit) offset).total =
        table.length) := by
  refine ⟨?_, ?_, ?_, ?_, by decide, by decide, ?_⟩
  · intro h
    simp [schemaGetTableData, h]
  · intro h hl
    simp [schemaGetTableData, h, hl]
  · intro h hl ho
    simp [schemaGetTableData, h, hl, ho]
  · intro h hl ho
    simp [schemaGetTableData, effectiveLimit, h, hl, ho]
  · intro ρ table columns h hl ho
    constructor
    · simp [schemaGetTableData, effectiveLimit, h, hl, ho]
    · rfl

/-- Witness for claim C5: with an echoing engine, a zero limit reaches
the engine as 100 and a 5000 limit as 1000; a blank name and a negative
limit are rejected with the fixed errors. -/
theorem schemaGetTableData_validation_witness :
    schemaGetTableData (fun n l o => Except.ok (n, l, o)) "orders".data 0 0 =
      Except.ok ("orders".data, (100 : Int), (0 : Int)) ∧
    schemaGetTableData (fun n l o => Except.ok (n, l, o)) "orders".data 5000 2 =
      Except.ok ("orders".data, (1000 : Int), (2 : Int)) ∧
    schemaGetTableData (fun n l o => Except.ok (n, l, o)) "   ".data 10 0 =
      Except.error "table name cannot be empty".data ∧
    schemaGetTableData (fun n l o => Except.ok (n, l, o)) "orders".data (-1) 0 =
      Except.error "limit cannot be negative".data ∧
    (postgresGetTableData [0, 1, 2, 3] [] "orders".data (effectiveLimit 0) 0).total = 4 := by
  refine ⟨?_, ?_, ?_, ?_, ?_⟩
  · exact ((schemaGetTableData_validation (fun n l o => Except.ok (n, l, o))
      "orders".data 0 0).2.2.2.1 (by decide) (by decide) (by decide)).trans rfl
  · exact ((schemaGetTableData_validation (fun n l o => Except.ok (n, l, o))
      "orders".data 5000 2).2.2.2.1 (by decide) (by decide) (by decide)).trans rfl
  · exact (schemaGetTableData_validation (fun n l o => Except.ok (n, l, o))
      "   ".data 10 0).1 (by decide)
  · exact (schemaGetTableData_validation (fun n l o => Except.ok (n, l, o))
      "orders".data (-1) 0).2.1 (by decide) (by decide)
  · exact ((schemaGetTableData_validation
      (fun n l o => Except.ok (postgresGetTableData [0, 1, 2, 3] [] n l o))
      "orders".data 0 0).2.2.2.2.2.2 Nat [0, 1, 2, 3] [] (by decide) (by decide)
      (by decide)).2

/-- Claim C7 as amended: the connection manager validation accepts a
configuration exactly when the type tag is one of the two supported
values, host, database name and username are non-empty and the port is
non-zero; each rejection names the first failing field in validateConfig
order, and NewManager wraps that error. The port range, the minimum open
connections and the idle bound are enforced by the loader validation
(ConfigValidate), not by NewManager. -/
theorem validateConfig_characterization (cfg : DatabaseConfig) :
    (validateConfig cfg = none ↔
      ((cfg.typ = "mysql".data ∨ cfg.typ = "postgres".data) ∧ cfg.host ≠ [] ∧
        cfg.port ≠ 0 ∧ cfg.database ≠ [] ∧ cfg.username ≠ [])) ∧
    (cfg.typ = [] → validateConfig cfg = some "database type is required".data) ∧
    (cfg.typ ≠ [] → cfg.typ ≠ "mysql".data → cfg.typ ≠ "postgres".data →
      validateConfig cfg = some ("unsupported database type: ".data ++ cfg.typ)) ∧
    (∀ e, validateConfig cfg = some e →
      NewManager cfg = .error ("invalid database configuration: ".data ++ e)) ∧
    (validateConfig cfg = none → NewManager cfg = .ok { config := cfg }) ∧
    (ConfigValidate cfg = none →
      1 ≤ cfg.port ∧ cfg.port ≤ 65535 ∧ 1 ≤ cfg.maxConns ∧
      0 ≤ cfg.maxIdleConns ∧ cfg.maxIdleConns ≤ cfg.maxConns) := by
  refine ⟨?_, ?_, ?_, ?_, ?_, ?_⟩
  · constructor
    · intro h
      unfold validateConfig at h
      split at h
      · exact absurd h (by simp)
      · split at h
        · exact absurd h (by simp)
        · split at h
          · exact absurd h (by simp)
          · split at h
            · exact absurd h (by simp)
            · split at h
              · exact absurd h (by simp)
              · split at h
                · exact absurd h (by simp)
                · rename_i h1 h2 h3 h4 h5 h6
                  refine ⟨?_, h3, h4, h5, h6⟩
                  rcases not_and_or.mp h2 with h0 | h0
                  · exact Or.inl (not_not.mp h0)
                  · exact Or.inr (not_not.mp h0)
    · rintro ⟨htyp, hhost, hport, hdb, huser⟩
      have htyp2 : cfg.typ ≠ [] := by
        rcases htyp with h | h <;> rw [h] <;> decide
      unfold validateConfig
      rcases htyp with h | h <;>
        simp [htyp2, h, hhost, hport, hdb, huser]
  · intro h
    simp [validateConfig, h]
  · intro h1 h2 h3
    simp [validateConfig, h1, h2, h3]
  · intro e h
    simp [NewManager, h]
  · intro h
    simp [NewManager, h]
  · intro h
    unfold ConfigValidate at h
    by_cases c1 : cfg.connectionString = [] ∧ cfg.typ = []
    · rw [if_pos c1] at h; exact absurd h (Option.some_ne_none _)
    rw [if_neg c1] at h
    by_cases c2 : cfg.connectionString = [] ∧ cfg.host = []
    · rw [if_pos c2] at h; exact absurd h (Option.some_ne_none _)
    rw [if_neg c2] at h
    by_cases c3 : cfg.connectionString = [] ∧ cfg.database = []
    · rw [if_pos c3] at h; exact absurd h (Option.some_ne_none _)
    rw [if_neg c3] at h
    by_cases c4 : cfg.connectionString = [] ∧ cfg.username = []
    · rw [if_pos c4] at h; exact absurd h (Option.some_ne_none _)
    rw [if_neg c4] at h
    by_cases c5 : cfg.typ ≠ "mysql".data ∧ cfg.typ ≠ "postgres".data
    · rw [if_pos c5] at h; exact absurd h (Option.some_ne_none _)
    rw [if_neg c5] at h
    by_cases c6 : cfg.host = []
    · rw [if_pos c6] at h; exact absurd h (Option.some_ne_none _)
    rw [if_neg c6] at h
    by_cases c7 : cfg.port ≤ 0 ∨ cfg.port > 65535
    · rw [if_pos c7] at h; exact absurd h (Option.some_ne_none _)
    rw [if_neg c7] at h
    by_cases c8 : cfg.database = []
    · rw [if_pos c8] at h; exact absurd h (Option.some_ne_none _)
    rw [if_neg c8] at h
    by_cases c9 : cfg.username = []
    · rw [if_pos c9] at h; exact absurd h (Option.some_ne_none _)
    rw [if_neg c9] at h
    by_cases c10 : cfg.maxConns < 1
    · rw [if_pos c10] at h; exact absurd h (Option.some_ne_none _)
    rw [if_neg c10] at h
    by_cases c11 : cfg.maxIdleConns < 0
    · rw [if_pos c11] at h; exact absurd h (Option.some_ne_none _)
    rw [if_neg c11] at h
    by_cases c12 : cfg.maxIdleConns > cfg.maxConns
    · rw [if_pos c12] at h; exact absurd h (Option.some_ne_none _)
    push_neg at c7
    exact ⟨by omega, by omega, by omega, by omega, by omega⟩

/-- Witness for claim C7 at two concrete configurations: the test
fixture is accepted and a configuration without a username is rejected
naming that field. -/
theorem validateConfig_characterization_witness :
    validateConfig cfgTestAllowed = none ∧
    NewManager cfgTestAllowed = .ok { config := cfgTestAllowed } ∧
    validateConfig { cfgTestAllowed with username := [] } =
      some "database username is required".data :=
  ⟨(validateConfig_characterization cfgTestAllowed).1.2
      ⟨Or.inr (by decide), by decide, by decide, by decide, by decide⟩,
   (validateConfig_characterization cfgTestAllowed).2.2.2.2.1
      ((validateConfig_characterization cfgTestAllowed).1.2
        ⟨Or.inr (by decide), by decide, by decide, by decide, by decide⟩),
   by decide⟩

/-- Counterexample to claim C7 as stated: a configuration whose port
exceeds 65535, whose maximum open connections is below one and whose
idle bound exceeds it passes validateConfig and NewManager unrejected
(the loader validation ConfigValidate is where those checks live). -/
theorem validateConfig_counterexample :
    validateConfig cfgBadPort = none ∧
    NewManager cfgBadPort = .ok { config := cfgBadPort } ∧
    cfgBadPort.port > 65535 ∧ cfgBadPort.maxConns < 1 ∧
    cfgBadPort.maxIdleConns > cfgBadPort.maxConns ∧
    (ConfigValidate cfgBadPort).isSome = true :=
  ⟨by decide, rfl, by decide, by decide, by decide, by decide⟩

/-- Claim C8 as amended: on an engine whose connection is not yet
established (nil db pointer), Ping, Query and Exec return the
not-connected error for every underlying behaviour, but QueryRow
performs no nil check and crashes on the nil pointer dereference instead
of signalling an error; both engines share these method bodies. The
introspection operations built on Query (ListTables, ListDatabases,
DescribeTable) therefore surface the error wrapped with their operation
context, while those whose first engine call is QueryRow (GetTableData
with its count query, for every limit, and ExplainQuery) crash. -/
theorem engineOps_before_connect {δ ρ : Type} (pingDB : δ → OpResult Unit)
    (queryDB execDB queryRowDB : δ → OpResult ρ)
    (tablesDB databasesDB : δ → OpResult (List Str))
    (describeDB : δ → OpResult ρ) (countScan : δ → OpResult Unit)
    (dataQuery : δ → OpResult ρ) (explainScan : δ → OpResult Str)
    (limit : Int) :
    enginePing pingDB { db := none } = .err "no database connection".data ∧
    engineQuery queryDB { db := none } = .err "no database connection".data ∧
    engineExec execDB { db := none } = .err "no database connection".data ∧
    engineQueryRow queryRowDB { db := none } = .crashed ∧
    engineListTablesOp tablesDB { db := none } =
      .err ("failed to list tables: ".data ++ "no database connection".data) ∧
    engineListDatabasesOp databasesDB { db := none } =
      .err ("failed to list databases: ".data ++ "no database connection".data) ∧
    engineDescribeTableOp describeDB { db := none } =
      .err ("failed to describe table: ".data ++ "no database connection".data) ∧
    engineGetTableDataOp countScan dataQuery { db := none } limit = .crashed ∧
    engineExplainQueryOp explainScan { db := none } = .crashed :=
  ⟨rfl, rfl, rfl, rfl, rfl, rfl, rfl, rfl, rfl⟩

/-- Counterexample to claim C8 as stated: QueryRow on a disconnected
engine crashes rather than returning the not-connected error. -/
theorem engineQueryRow_counterexample :
    engineQueryRow (fun (d : Unit) => OpResult.ok d) { db := none } =
      OpResult.crashed ∧
    engineQueryRow (fun (d : Unit) => OpResult.ok d) { db := none } ≠
      OpResult.err "no database connection".data :=
  ⟨rfl, by decide⟩

/-- Claim C9 as amended: for every configuration with a non-empty SSL
mode, the MySQL connection string carries the TLS flag selected by the
buildDSN switch, whose cases are the raw strings none (tls=false),
required (tls=true) and preferred (tls=preferred), every other value
including the enumeration values prefer and require falling to the
default tls=true; the fixed parseTime and timeout parameters are always
appended. -/
theorem mysqlBuildDSN_ssl_mapping (cfg : DatabaseConfig)
    (h : cfg.sslMode ≠ []) :
    containsSub (mysqlSSLParam cfg.sslMode) (mysqlBuildDSN cfg) = true ∧
    mysqlSSLParam "none".data = "tls=false".data ∧
    mysqlSSLParam "required".data = "tls=true".data ∧
    mysqlSSLParam "preferred".data = "tls=preferred".data ∧
    mysqlSSLParam "prefer".data = "tls=true".data ∧
    mysqlSSLParam "require".data = "tls=true".data ∧
    containsSub "parseTime=true".data (mysqlBuildDSN cfg) = true ∧
    containsSub "timeout=30s".data (mysqlBuildDSN cfg) = true ∧
    containsSub "readTimeout=30s".data (mysqlBuildDSN cfg) = true ∧
    containsSub "writeTimeout=30s".data (mysqlBuildDSN cfg) = true := by
  have tail : ∀ p : Str,
      containsSub p (List.intercalate "&".data
        ([mysqlSSLParam cfg.sslMode] ++ ["parseTime=true".data, "timeout=30s".data,
          "readTimeout=30s".data, "writeTimeout=30s".data])) = true →
      containsSub p (mysqlBuildDSN cfg) = true := by
    intro p hp
    unfold mysqlBuildDSN
    rw [if_pos h]
    exact containsSub_append_right p _ _ hp
  refine ⟨?_, rfl, rfl, rfl, rfl, rfl, ?_, ?_, ?_, ?_⟩
  · apply tail
    unfold mysqlSSLParam
    split
    · decide
    · split
      · decide
      · split
        · decide
        · decide
  · apply tail
    unfold mysqlSSLParam
    split
    · decide
    · split
      · decide
      · split
        · decide
        · decide
  · apply tail
    unfold mysqlSSLParam
    split
    · decide
    · split
      · decide
      · split
        · decide
        · decide
  · apply tail
    unfold mysqlSSLParam
    split
    · decide
    · split
      · decide
      · split
        · decide
        · decide
  · apply tail
    unfold mysqlSSLParam
    split
    · decide
    · split
      · decide
      · split
        · decide
        · decide

/-- Witness for claim C9 at the prefer configuration. -/
theorem mysqlBuildDSN_ssl_mapping_witness :
    containsSub (mysqlSSLParam cfgPrefer.sslMode) (mysqlBuildDSN cfgPrefer) = true ∧
    mysqlSSLParam "prefer".data = "tls=true".data ∧
    containsSub "timeout=30s".data (mysqlBuildDSN cfgPrefer) = true :=
  ⟨(mysqlBuildDSN_ssl_mapping cfgPrefer (by decide)).1,
   (mysqlBuildDSN_ssl_mapping cfgPrefer (by decide)).2.2.2.2.1,
   (mysqlBuildDSN_ssl_mapping cfgPrefer (by decide)).2.2.2.2.2.2.2.1⟩

/-- Counterexample to claim C9 as stated: with the SSL enumeration value
prefer the connection string carries tls=true, not the preferred flag. -/
theorem mysqlBuildDSN_prefer_counterexample :
    cfgPrefer.sslMode = "prefer".data ∧
    containsSub "tls=preferred".data (mysqlBuildDSN cfgPrefer) = false ∧
    containsSub "tls=true".data (mysqlBuildDSN cfgPrefer) = true := by
  refine ⟨rfl, ?_, ?_⟩ <;> decide

/-- Claim C6 as amended: sanitizing nil yields nil, and sanitizing a
non-nil error yields the message with all occurrences of the non-empty
password, then username, then host sequentially replaced by the
redaction marker; on the test vectors each sensitive value is redacted.
The configured values need not be absent from the delivered text, since
a replacement can itself reintroduce one of them. -/
theorem sanitizeErrorMessage_spec (cfg : DatabaseConfig) (msg : Str) :
    SanitizeErrorMessage cfg none = none ∧
    SanitizeErrorMessage cfg (some msg) = some
      (let r := "[REDACTED]".data
       let m1 := if cfg.password ≠ [] then replaceAll msg cfg.password r else msg
       let m2 := if cfg.username ≠ [] then replaceAll m1 cfg.username r else m1
       if cfg.host ≠ [] then replaceAll m2 cfg.host r else m2) ∧
    SanitizeErrorMessage cfgSecrets
        (some "connection failed: password 'secret-password' is incorrect".data) =
      some "connection failed: password '[REDACTED]' is incorrect".data ∧
    SanitizeErrorMessage cfgSecrets
        (some "user secret-user@secret-host.com authentication failed with password secret-password".data) =
      some "user [REDACTED]@[REDACTED] authentication failed with password [REDACTED]".data := by
  refine ⟨rfl, rfl, ?_, ?_⟩ <;> decide

/-- Counterexample to claim C6 as stated: with host RED (and non-empty
username and password), the sanitized text of the error RED is the
redaction marker itself, which still contains the configured host. -/
theorem sanitizeErrorMessage_counterexample :
    cfgRed.host = "RED".data ∧
    SanitizeErrorMessage cfgRed (some "RED".data) = some "[REDACTED]".data ∧
    containsSub cfgRed.host "[REDACTED]".data = true := by
  refine ⟨rfl, ?_, ?_⟩ <;> decide

/-- Claim C3: the complexity check rejects exactly when the
case-insensitive SELECT occurrence count exceeds 6, or the JOIN count
exceeds 10, or the raw statement length exceeds 50000; a statement with
7 SELECT occurrences (in either case) is rejected and one with 5 is
accepted. -/
theorem validateQueryComplexity_characterization (q : Str) :
    ((validateQueryComplexity q).isSome =
      (decide (countOcc "SELECT".data (toUpperStr (trimSpace q)) > 6) ||
       decide (countOcc "JOIN".data (toUpperStr (trimSpace q)) > 10) ||
       decide (q.length > 50000))) ∧
    (validateQueryComplexity
      "SELECT SELECT SELECT SELECT SELECT SELECT SELECT".data).isSome = true ∧
    (validateQueryComplexity
      "select select select select select select select".data).isSome = true ∧
    validateQueryComplexity
      "SELECT SELECT SELECT SELECT SELECT".data = none := by
    refine ⟨?_, by decide, by decide, by decide⟩
    have h1i : ((5 : Int) <
        (countOcc "SELECT".data (toUpperStr (trimSpace q)) : Int) - 1) ↔
        countOcc "SELECT".data (toUpperStr (trimSpace q)) > 6 := by omega
    have h2i : ((10 : Int) <
        (countOcc "JOIN".data (toUpperStr (trimSpace q)) : Int)) ↔
        countOcc "JOIN".data (toUpperStr (trimSpace q)) > 10 := by omega
    have h3i : ((50000 : Int) < (q.length : Int)) ↔ q.length > 50000 := by omega
    by_cases h1 : countOcc "SELECT".data (toUpperStr (trimSpace q)) > 6 <;>
      by_cases h2 : countOcc "JOIN".data (toUpperStr (trimSpace q)) > 10 <;>
        by_cases h3 : q.length > 50000 <;>
          simp [validateQueryComplexity, h1i, h2i, h3i, h1, h2, h3]

/-- Claim C4: statement classification equals the spec classifier (prefix
dispatch on the uppercased, comment-stripped text, everything unmatched
defaulting to ddl, so the DDL keyword list of the code is redundant),
and the reference examples classify as stated. Determinism and case and
leading-comment insensitivity are exactly the factoring through that
normalised text. -/
theorem determineQueryType_spec (q : Str) :
    determineQueryType q =
      specQueryType (stripLeadingBlockComments
        (stripLeadingLineComments (toUpperStr (trimSpace q)))) ∧
    determineQueryType "-- c\nSELECT 1".data = "select".data ∧
    determineQueryType "select 1".data = "select".data ∧
    determineQueryType "WITH x AS (SELECT 1) SELECT * FROM x".data = "select".data ∧
    determineQueryType "CREATE TABLE t(id INT)".data = "ddl".data ∧
    determineQueryType "INSERT INTO t VALUES (1)".data = "insert".data ∧
    determineQueryType "update t set x = 1".data = "update".data ∧
    determineQueryType "DELETE FROM t".data = "delete".data ∧
    determineQueryType "GRANT SELECT ON t TO u".data = "ddl".data := by
  refine ⟨?_, by decide, by decide, by decide, by decide, by decide, by decide,
    by decide, by decide⟩
  unfold determineQueryType specQueryType
  simp only []
  split
  · simp_all
  · split
    · simp_all
    · split
      · simp_all
      · split
        · simp_all
        · split
          · simp_all
          · simp_all

/-- Every error of the database-access check is the access-denied message
for some database name. -/
theorem validateDatabaseAccess_msg_shape (cfg : DatabaseConfig) (q e : Str)
    (h : validateDatabaseAccess cfg q = some e) : ∃ n, e = accessDeniedMsg n := by
  simp only [validateDatabaseAccess] at h
  split at h
  · split at h
    · exact ⟨_, (Option.some.inj h).symm⟩
    · split at h
      · exact ⟨_, (Option.some.inj h).symm⟩
      · split at h
        · exact absurd h (by simp [validateInformationSchemaQuery])
        · exact absurd h (by simp)
  · split at h
    · exact ⟨_, (Option.some.inj h).symm⟩
    · split at h
      · exact absurd h (by simp [validateInformationSchemaQuery])
      · exact absurd h (by simp)

/-- Every error of the basic-safety check is the empty-query message or a
dangerous-pattern message. -/
theorem validateBasicSafety_msg_shape (q e : Str)
    (h : validateBasicSafety q = some e) :
    e = "query cannot be empty".data ∨ ∃ d p, e = dangerousPatternMsg d p := by
  simp only [validateBasicSafety] at h
  split at h
  · exact Or.inl (Option.some.inj h).symm
  · split at h
    · rename_i d hd
      exact Or.inr ⟨d.2, d.1, (Option.some.inj h).symm⟩
    · exact absurd h (by simp)

/-- Every error of the complexity check is one of its three messages. -/
theorem validateQueryComplexity_msg_shape (q e : Str)
    (h : validateQueryComplexity q = some e) :
    (∃ n, e = subqueriesMsg n) ∨ (∃ n, e = joinsMsg n) ∨ ∃ n, e = tooLongMsg n := by
  simp only [validateQueryComplexity] at h
  split at h
  · exact Or.inl ⟨_, (Option.some.inj h).symm⟩
  · split at h
    · exact Or.inr (Or.inl ⟨_, (Option.some.inj h).symm⟩)
    · split at h
      · exact Or.inr (Or.inr ⟨_, (Option.some.inj h).symm⟩)
      · exact absurd h (by simp)

/-- The access-denied message starts with its check marker. -/
theorem accessDeniedMsg_marker (n : Str) :
    "access denied".data.isPrefixOf (accessDeniedMsg n) = true := by
  unfold accessDeniedMsg
  apply isPrefixOf_append_left
  apply isPrefixOf_append_left
  decide

/-- The dangerous-pattern message starts with its check marker. -/
theorem dangerousPatternMsg_marker (d p : Str) :
    "potentially dangerous pattern detected".data.isPrefixOf
      (dangerousPatternMsg d p) = true := by
  unfold dangerousPatternMsg
  apply isPrefixOf_append_left
  apply isPrefixOf_append_left
  apply isPrefixOf_append_left
  decide

/-- The three complexity messages start with their check marker. -/
theorem complexityMsg_marker (n : Int) :
    "query complexity limit exceeded".data.isPrefixOf (subqueriesMsg n) = true ∧
    "query complexity limit exceeded".data.isPrefixOf (joinsMsg n) = true ∧
    "query complexity limit exceeded".data.isPrefixOf (tooLongMsg n) = true := by
  unfold subqueriesMsg joinsMsg tooLongMsg
  refine ⟨?_, ?_, ?_⟩ <;>
    (apply isPrefixOf_append_left; apply isPrefixOf_append_left; decide)

/-- Claim C1: ValidateQuery runs database access, then basic safety,
then complexity, short-circuiting on the first failure: an access-check
error is returned whatever the later checks would say (so even when a
denylisted substring is present), a basic-safety error is returned
exactly when the access check passed, the complexity check decides the
result only when both earlier checks passed, and every returned error
text carries the marker of the check that failed. -/
theorem validateQuery_check_order (cfg : DatabaseConfig) (q : Str) :
    (∀ e, validateDatabaseAccess cfg q = some e →
      ValidateQuery cfg q = some e ∧
      "access denied".data.isPrefixOf e = true) ∧
    (validateDatabaseAccess cfg q = none →
      ∀ e, validateBasicSafety q = some e →
        ValidateQuery cfg q = some e ∧
        (e = "query cannot be empty".data ∨
          "potentially dangerous pattern detected".data.isPrefixOf e = true)) ∧
    (validateDatabaseAccess cfg q = none → validateBasicSafety q = none →
      ValidateQuery cfg q = validateQueryComplexity q) ∧
    (∀ e, validateQueryComplexity q = some e →
      "query complexity limit exceeded".data.isPrefixOf e = true) := by
  refine ⟨?_, ?_, ?_, ?_⟩
  · intro e h
    refine ⟨by simp [ValidateQuery, h], ?_⟩
    obtain ⟨n, rfl⟩ := validateDatabaseAccess_msg_shape cfg q e h
    exact accessDeniedMsg_marker n
  · intro ha e h
    refine ⟨by simp [ValidateQuery, ha, h], ?_⟩
    rcases validateBasicSafety_msg_shape q e h with h1 | ⟨d, p, rfl⟩
    · exact Or.inl h1
    · exact Or.inr (dangerousPatternMsg_marker d p)
  · intro ha hb
    simp [ValidateQuery, ha, hb]
  · intro e h
    rcases validateQueryComplexity_msg_shape q e h with ⟨n, rfl⟩ | ⟨n, rfl⟩ | ⟨n, rfl⟩
    · exact (complexityMsg_marker n).1
    · exact (complexityMsg_marker n).2.1
    · exact (complexityMsg_marker n).2.2

/-- Witness for claim C1 at the integration-test query that violates
both the access check and the denylist: the access-denied error wins. -/
theorem validateQuery_check_order_witness :
    validateDatabaseAccess cfgTestAllowed
        "USE production; -- DROP TABLE users".data =
      some (accessDeniedMsg "production".data) ∧
    (validateBasicSafety "USE production; -- DROP TABLE users".data).isSome = true ∧
    ValidateQuery cfgTestAllowed "USE production; -- DROP TABLE users".data =
      some (accessDeniedMsg "production".data) ∧
    "access denied".data.isPrefixOf (accessDeniedMsg "production".data) = true :=
  ⟨by decide, by decide,
   ((validateQuery_check_order cfgTestAllowed
       "USE production; -- DROP TABLE users".data).1 _ (by decide)).1,
   ((validateQuery_check_order cfgTestAllowed
       "USE production; -- DROP TABLE users".data).1 _ (by decide)).2⟩

end DBMCP
